import Mathlib

/-!
Shallow embedding of the quiz-fighter backend pipeline
(src/generate_questions.py, src/game_utils.py, src/main.py).

Modelling conventions:
* Python dicts that accumulate keys are modelled as structures whose
  optional keys are `Option`-valued; a key that may be present with the
  value `None` is modelled as `Option (Option _)` (`none` = key absent,
  `some none` = key present with value `None`).
* Calls to external collaborators (the Anthropic generation backend, the
  Supabase game store, the Wikipedia fetcher) are modelled as explicit
  oracle parameters describing the outcome of each call; an exception
  raised by a call is an `Except.error` / `raise` outcome.
* `asyncio.gather(*tasks)` returns results in task-creation order, so the
  concurrent fan-out stages are modelled as order-preserving maps; a task
  exception propagates out of `gather`, modelled as `Except.error`.
* Python machine integers are unbounded, so `Int`/`Nat` model them
  exactly; Python floor division `//` on a positive divisor is `Nat`
  division.
-/

namespace QuizFighter

/-- Python regex whitespace class over the ASCII range, used by the
`\s` pieces of the config pattern and by `str.strip`. -/
def pyWs (c : Char) : Bool :=
  c == ' ' || c == '\t' || c == '\n' || c == '\r' || c == Char.ofNat 11 || c == Char.ofNat 12

/-- The opening curly brace character. -/
def lbrace : Char := Char.ofNat 123

/-- The closing curly brace character. -/
def rbrace : Char := Char.ofNat 125

/-- Python `str.strip()`: remove leading and trailing whitespace. -/
def pyStrip (s : List Char) : List Char :=
  ((s.dropWhile pyWs).reverse.dropWhile pyWs).reverse

/-! ## Partitioner (src/generate_questions.py lines 93-100)

`part_length = len(context) // n` raises `ZeroDivisionError` when `n = 0`;
for negative `n`, `range(n)` is empty so no parts are produced; for
`n >= 1` the loop slices `context[i*part_length : i*part_length+part_length]`
for `i < n-1` and `context[start:]` for the last part. -/

def splitParts (context : List Char) (n : Int) : Except String (List (List Char)) :=
  if n = 0 then .error "ZeroDivisionError"
  else if n < 0 then .ok []
  else
    let m := n.toNat
    let part_length := context.length / m
    .ok ((List.range m).map fun i =>
      if i < m - 1 then (context.drop (i * part_length)).take part_length
      else context.drop (i * part_length))

/-! ## Question records

One structure models the question dict through the whole pipeline: the
generator creates it, the matcher adds `game_id` / `original_config` /
`original_code`, the config stage adds `code` and pops the transient
fields. -/

structure Question where
  question_number : Nat
  question : String
  question_type : Option String
  choices : Option (List String)
  correct_answer : String
  explanation : String
  difficulty : Option String
  success_pun : Option String
  game_id : Option (Option String)
  original_config : Option (Option String)
  original_code : Option (Option String)
  code : Option String
deriving DecidableEq, Repr

structure QuizData where
  total_questions : Nat
  questions : List Question
deriving DecidableEq, Repr

/-- Per-question post-processing done inside the renumbering loop of
`generate_questions_for_part` (src/generate_questions.py lines 157-171):
set the global question number, backfill `choices` for multiple-choice
questions that lack them, default `difficulty` and `success_pun`. -/
def fixupQuestion (num : Nat) (q : Question) : Question :=
  { q with
    question_number := num
    choices :=
      if q.question_type == some "multiple_choice" && q.choices.isNone then
        some ["Error: Choices not generated properly"]
      else q.choices
    difficulty := some (q.difficulty.getD "medium")
    success_pun := some (q.success_pun.getD "Great job!") }

/-- The `for i, q in enumerate(questions)` renumbering loop: question `i`
of the part receives number `num + i`. -/
def renumberFrom (num : Nat) : List Question → List Question
  | [] => []
  | q :: qs => fixupQuestion num q :: renumberFrom (num + 1) qs

/-- Post-processing of one part (src/generate_questions.py lines 150-173):
`start_num = part_index * sub_n + 1`; the loop reads
`q["question_type"]` unconditionally, so a question lacking that key
raises `KeyError`, which is caught by the surrounding `except` and turns
the whole part into `[]`. -/
def postprocessPart (sub_n part_index : Nat) (qs : List Question) : List Question :=
  if qs.all (fun q => q.question_type.isSome) then
    renumberFrom (part_index * sub_n + 1) qs
  else []

/-- One generation call for one part (src/generate_questions.py lines
142-180). The oracle describes the outcome of the backend call for the
given part index and text: `.error` = the call (or response processing)
raised, `.ok none` = no `create_quiz_questions` tool use in the response,
`.ok (some qs)` = the structured questions extracted from the tool use.
Both failure shapes degrade the part to `[]`. -/
def generate_questions_for_part
    (backend : Nat → List Char → Except String (Option (List Question)))
    (sub_n : Nat) (part_index : Nat) (part_text : List Char) : List Question :=
  match backend part_index part_text with
  | .error _ => []
  | .ok none => []
  | .ok (some qs) => postprocessPart sub_n part_index qs

/-- Results of the per-part tasks in part order, starting at part index
`k`; `asyncio.gather` preserves task order, so completion order never
shows in the result. -/
def segmentResultsFrom
    (backend : Nat → List Char → Except String (Option (List Question)))
    (sub_n k : Nat) : List (List Char) → List (List Question)
  | [] => []
  | part :: parts =>
      generate_questions_for_part backend sub_n k part ::
      segmentResultsFrom backend sub_n (k + 1) parts

def segmentResults
    (backend : Nat → List Char → Except String (Option (List Question)))
    (sub_n : Nat) (parts : List (List Char)) : List (List Question) :=
  segmentResultsFrom backend sub_n 0 parts

/-- `generate_quiz_questions` (src/generate_questions.py lines 10-202):
split the text into `n` parts, run one generation task per part, flatten
the per-part lists in part order, and report the flattened length as
`total_questions`. -/
def generate_quiz_questions
    (backend : Nat → List Char → Except String (Option (List Question)))
    (context : List Char) (n : Int) (sub_n : Nat) : Except String QuizData :=
  match splitParts context n with
  | .error e => .error e
  | .ok parts =>
      let all_questions := (segmentResults backend sub_n parts).flatten
      .ok { total_questions := all_questions.length, questions := all_questions }

/-! ## Game store records and the matcher (src/game_utils.py lines 99-169) -/

structure GameMeta where
  device : Option String
  question_type : Option String
deriving DecidableEq, Repr

structure Game where
  id : String
  metadata : GameMeta
  config : String
  code : String
deriving DecidableEq, Repr

/-- `match_question_with_game` (src/game_utils.py lines 123-169).
The store query outcome is an oracle: `.error` = the Supabase call (or
anything else inside the `try`) raised, `.ok d` = the query returned with
`response.data = d` (`response.data or []` turns a `None` payload into
`[]`).  `random.choice(matched_games)` picks a uniformly random member of
the non-empty filtered list; the draw is modelled by the `pick` index,
reduced modulo the list length.  Every branch, the error branch included,
returns a question, so no exception escapes this function. -/
def match_question_with_game (question : Question) (device : String)
    (queryResult : Except String (Option (List Game))) (pick : Nat) : Question :=
  let question_type := question.question_type.getD "multiple_choice"
  match queryResult with
  | .error _ =>
      { question with game_id := some none
                      original_config := some none
                      original_code := some none }
  | .ok data =>
      let games := data.getD []
      let matched_games := games.filter fun g =>
        g.metadata.device == some device && g.metadata.question_type == some question_type
      if h : matched_games.length = 0 then
        { question with game_id := some none
                        original_config := some none
                        original_code := some none }
      else
        let selected := matched_games.get ⟨pick % matched_games.length,
          Nat.mod_lt _ (Nat.pos_of_ne_zero h)⟩
        { question with game_id := some (some selected.id)
                        original_config := some (some selected.config)
                        original_code := some (some selected.code) }

/-- `match_questions_with_games` (src/game_utils.py lines 99-120): one
task per question, gathered in question order.  Each task performs its
own store query, so the oracles are indexed by question position.  (The
`isinstance` guard only skips non-dict entries, which cannot arise in
this typed model.) -/
def match_questions_with_games : List Question → String →
    (Nat → Except String (Option (List Game))) → (Nat → Nat) → List Question
  | [], _, _, _ => []
  | q :: qs, device, query, pick =>
      match_question_with_game q device (query 0) (pick 0) ::
      match_questions_with_games qs device (fun i => query (i + 1)) (fun i => pick (i + 1))

/-! ## Config mutation (src/game_utils.py lines 172-332) -/

/-- Outcome of one synchronous Claude call made by
`update_config_with_theme`: `.raise` = the call (or reading the response)
raised an exception, `.ok none` = a falsy response or empty `content`
list, `.ok (some txt)` = `response.content[0].text = txt`. -/
inductive CallOutcome where
  | raise (msg : String)
  | ok (contentText : Option String)
deriving DecidableEq, Repr

/-- One attempt of the call body of `update_config_with_theme`
(src/game_utils.py lines 285-300): a falsy response or blank text falls
back to the original config; an exception is re-raised so the retry
decorator can see it. -/
def attemptConfigCall (original_config : String) (o : CallOutcome) : Except String String :=
  match o with
  | .raise e => .error e
  | .ok none => .ok original_config
  | .ok (some txt) =>
      .ok (if txt ≠ "" then String.mk (pyStrip txt.data) else original_config)

/-- `update_config_with_theme` under its `@retry` decorator
(src/game_utils.py lines 233-300): `stop_after_attempt(2)` allows two
attempts in total; with the default `reraise=False`, exhausting the
budget raises `tenacity.RetryError` (there is no fallback branch for
that case).  The backoff waits (exponential, min 2, max 6) only affect
timing, not the returned value.  `theme_summary` and `question` only
shape the prompt text. -/
def update_config_with_theme (original_config : String) (theme_summary : String)
    (question : Question) (attempts : Nat → CallOutcome) : Except String String :=
  match attemptConfigCall original_config (attempts 0) with
  | .ok s => .ok s
  | .error _ =>
      match attemptConfigCall original_config (attempts 1) with
      | .ok s => .ok s
      | .error e => .error ("RetryError: " ++ e)

/-! ### The config-declaration pattern

`replace_config_in_code` searches for the Python regex
`const\s+config\s*=\s*(\x7b[\s\S]*?\x7d)\s*;`.  The lazy group means: at
the leftmost matching start position, the body ends at the first closing
brace that is followed by optional whitespace and a semicolon.  The
model implements exactly this leftmost-match / shortest-body search. -/

/-- Match a literal character sequence at the head of the input,
returning the rest. -/
def stripLit : List Char → List Char → Option (List Char)
  | [], s => some s
  | _, [] => none
  | p :: ps, c :: cs => if c = p then stripLit ps cs else none

/-- Scan for the first closing brace whose following characters are
optional whitespace and then a semicolon (the `[\s\S]*?\x7d` lazy body
followed by the `\s*;` tail).  Returns the body chars before that brace
and the rest after it. -/
def scanLazy : List Char → Option (List Char × List Char)
  | [] => none
  | c :: rest =>
      if c = rbrace ∧ ((rest.dropWhile pyWs).head? = some ';') then
        some ([], rest)
      else
        match scanLazy rest with
        | some (inner, rest2) => some (c :: inner, rest2)
        | none => none

/-- Try to match the whole config pattern at the head of `s`.  On
success return the captured group (the brace-delimited object literal)
and the input remaining after the final semicolon. -/
def matchConfigAt (s : List Char) : Option (List Char × List Char) :=
  match stripLit "const".data s with
  | none => none
  | some r1 =>
      if (r1.takeWhile pyWs).isEmpty then none
      else
        match stripLit "config".data (r1.dropWhile pyWs) with
        | none => none
        | some r3 =>
            match r3.dropWhile pyWs with
            | '=' :: r5 =>
                match r5.dropWhile pyWs with
                | c :: r7 =>
                    if c = lbrace then
                      match scanLazy r7 with
                      | some (inner, rest1) =>
                          match rest1.dropWhile pyWs with
                          | ';' :: rest3 => some (lbrace :: (inner ++ [rbrace]), rest3)
                          | _ => none
                      | none => none
                    else none
                | [] => none
            | _ => none

/-- Leftmost `re.search` of the config pattern, split form: on success
return the characters before the match, the captured group, and the
characters after the match. -/
def findConfigSplit : List Char → Option (List Char × List Char × List Char)
  | [] => none
  | c :: rest =>
      match matchConfigAt (c :: rest) with
      | some (g, after) => some ([], g, after)
      | none =>
          match findConfigSplit rest with
          | some (pre, g, after) => some (c :: pre, g, after)
          | none => none

/-- Leftmost `re.search` of the config pattern returning only the
captured group (used on `updated_config`). -/
def findConfigGroup (s : List Char) : Option (List Char) :=
  match findConfigSplit s with
  | some (_, g, _) => some g
  | none => none

/-- The diagnostic of src/game_utils.py line 311: `logger.warning` fires
exactly when the original code contains no config-declaration block. -/
def noConfigDiagnostic (original_code : String) : Bool :=
  (findConfigSplit original_code.data).isNone

/-- The normalisation of `updated_config` in `replace_config_in_code`
(src/game_utils.py lines 314-324): if the stripped text does not start
with `const config`, extract a declaration group from it, or wrap the
raw stripped text and terminate it with a semicolon. -/
def fixUpdatedConfig (updated_config : List Char) : List Char :=
  if (stripLit "const config".data (pyStrip updated_config)).isSome then updated_config
  else
    match findConfigGroup updated_config with
    | some g => "const config = ".data ++ (g ++ [';'])
    | none =>
        let w := "const config = ".data ++ pyStrip updated_config
        if w.getLast? = some ';' then w else w ++ [';']

/-- `replace_config_in_code` (src/game_utils.py lines 303-332): when the
pattern does not occur in `original_code`, the code is returned
unmodified (after the warning); otherwise `re.sub(..., count=1)`
replaces the first matched span with the normalised replacement.  (The
escape processing `re.sub` applies to backslashes in the replacement
string is not modelled; no claim depends on it.) -/
def replace_config_in_code (original_code updated_config : String) : String :=
  match findConfigSplit original_code.data with
  | none => original_code
  | some (pre, _, after) =>
      String.mk (pre ++ fixUpdatedConfig updated_config.data ++ after)

/-- `process_question_config` (src/game_utils.py lines 201-230): the
direct subscript `question["original_config"]` raises `KeyError` when
the key is absent (its callers filter so that it never is); an error
from `update_config_with_theme` is not caught here and propagates.  On
success, `code` is set when both the updated config and
`question.get("original_code", "")` are truthy, and the two transient
keys are popped. -/
def process_question_config (question : Question) (theme_summary : String)
    (attempts : Nat → CallOutcome) : Except String Question :=
  match question.original_config with
  | some (some original_config) =>
      match update_config_with_theme original_config theme_summary question attempts with
      | .error e => .error e
      | .ok updated_config =>
          let original_code := match question.original_code with
            | some (some s) => s
            | _ => ""
          let q1 :=
            if updated_config ≠ "" ∧ original_code ≠ "" then
              { question with code := some (replace_config_in_code original_code updated_config) }
            else question
          .ok { q1 with original_config := none, original_code := none }
  | _ => .error "KeyError: original_config"

/-- Python truthiness of `q.get(key)` for a string-valued optional key:
the key must be present, non-`None`, and a non-empty string. -/
def truthyField : Option (Option String) → Bool
  | some (some s) => s ≠ ""
  | _ => false

/-- The eligibility filter of `update_game_configs` (src/game_utils.py
line 178). -/
def eligibleQuestion (q : Question) : Bool :=
  truthyField q.game_id && truthyField q.original_config

/-- The gathered per-eligible-question tasks of `update_game_configs`,
indexed from `k`: order-preserving, and the first task error propagates
out of the gather.  (Python `asyncio.gather` raises the earliest
exception by completion time; which error surfaces differs, but an
error surfaces exactly when some task raises.) -/
def processAll (theme_summary : String) (attemptsFor : Nat → Nat → CallOutcome) :
    Nat → List Question → Except String (List Question)
  | _, [] => .ok []
  | k, q :: qs =>
      match process_question_config q theme_summary (attemptsFor k) with
      | .error e => .error e
      | .ok q1 =>
          match processAll theme_summary attemptsFor (k + 1) qs with
          | .error e => .error e
          | .ok rest => .ok (q1 :: rest)

/-- `update_game_configs` (src/game_utils.py lines 172-198): filter to
the eligible questions, process them concurrently, and return only the
processed list (`return []` when there are no tasks; questions that are
not eligible are absent from the returned list). -/
def update_game_configs (questions : List Question) (theme_summary : String)
    (attemptsFor : Nat → Nat → CallOutcome) : Except String (List Question) :=
  processAll theme_summary attemptsFor 0 (questions.filter eligibleQuestion)

/-! ## Theme summarizer and the HTTP orchestration (src/game_utils.py
lines 57-96, src/main.py lines 30-91) -/

/-- `generate_theme_summary` (src/game_utils.py lines 57-96): any
exception, falsy response, or empty content degrades to the fixed
fallback string; this function never raises. -/
def generate_theme_summary (outcome : Except String (Option String)) (is_pdf : Bool) : String :=
  match outcome with
  | .error _ => "Unable to generate theme summary."
  | .ok none => "Unable to generate theme summary."
  | .ok (some t) => t

/-- The JSON bodies the `/generate-quiz` GET endpoint can return. -/
inductive ApiResult where
  | payload (total_questions : Nat) (questions : List Question) (theme_summary : String)
  | errorPayload (message : String)
deriving DecidableEq, Repr

/-- `generate_quiz_get` (src/main.py lines 30-91).  After the device and
query validation, line 53 runs `content = await wiki_search_with_claude(user_query)`.
`wiki_search_with_claude` (src/wiki.py line 9) is a plain synchronous
`def` returning `str`, so the call either raises an exception of its own
(e.g. the uncaught Claude call in `generate_search_queries`) — modelled
by the `wiki` oracle's `.error` case — or returns a `str`, which the
`await` then rejects with an unconditional
`TypeError: object str cannot be used in await expression`.  Either
way, every request that passes validation terminates with an unhandled
exception, and the rest of the handler (lines 55-91: question
generation, theme summary, store init, matching, config mutation,
result assembly) is unreachable dead code.  An `Except.error` result is
an exception escaping the endpoint handler unhandled. -/
def generate_quiz_get (user_query : Option String) (device : String)
    (wiki : Except String String) : Except String ApiResult :=
  if ¬ (device = "web" ∨ device = "mobile") then
    .ok (.errorPayload "Device parameter must be either web or mobile")
  else if user_query.getD "" = "" then
    .ok (.errorPayload "Please provide a search query")
  else
    match wiki with
    | .error e => .error e
    | .ok _content => .error "TypeError: object str cannot be used in await expression"

/-! ## Concrete sample data used by witnesses and counterexamples -/

/-- A well-formed generated question, as the backend tool use would
return it before renumbering. -/
def sampleQ : Question :=
  { question_number := 0
    question := "Is water wet?"
    question_type := some "true_false"
    choices := none
    correct_answer := "True"
    explanation := "Because it is."
    difficulty := some "easy"
    success_pun := some "Water you know!"
    game_id := none
    original_config := none
    original_code := none
    code := none }

/-- A backend oracle whose every call returns the same question list. -/
def constBackend (qs : List Question) :
    Nat → List Char → Except String (Option (List Question)) :=
  fun _ _ => .ok (some qs)

/-- A backend oracle that returns four questions for part 0 and one
question for every later part (more than `sub_n = 3` for part 0). -/
def overfullBackend : Nat → List Char → Except String (Option (List Question)) :=
  fun i _ => if i = 0 then .ok (some [sampleQ, sampleQ, sampleQ, sampleQ]) else .ok (some [sampleQ])

/-- A game record compatible with `sampleQ` on the web device. -/
def sampleGame : Game :=
  { id := "game-1"
    metadata := { device := some "web", question_type := some "true_false" }
    config := "const config = \x7b color: red \x7d;"
    code := "start(); const config = \x7b color: red \x7d; run();" }

/-- A matched question, eligible for the config-update stage. -/
def matchedQ : Question :=
  { sampleQ with
    game_id := some (some "game-1")
    original_config := some (some "const config = \x7b color: red \x7d;")
    original_code := some (some "start(); const config = \x7b color: red \x7d; run();") }

/-- A matched question whose game code contains no config-declaration
block. -/
def matchedQNoBlock : Question :=
  { sampleQ with
    game_id := some (some "game-2")
    original_config := some (some "const config = \x7b color: red \x7d;")
    original_code := some (some "start(); run();") }

/-- A store-query oracle that fails for question 0 and returns the
sample game for every later question. -/
def failingThenOkQuery : Nat → Except String (Option (List Game)) :=
  fun i => if i = 0 then .error "db down" else .ok (some [sampleGame])

/-- Config-call attempt oracles that always raise. -/
def raisingAttempts : Nat → Nat → CallOutcome :=
  fun _ j => .raise ("boom" ++ toString j)

/-- Config-call attempt oracles that always succeed with a fresh config
text. -/
def okAttempts : Nat → Nat → CallOutcome :=
  fun _ _ => .ok (some "const config = \x7b color: blue \x7d;")

end QuizFighter

namespace QuizFighter

section Scratch

example : splitParts "abcdefg".data 3 =
    .ok ["ab".data, "cd".data, "efg".data] := rfl

example : splitParts "abc".data 1 = .ok ["abc".data] := rfl

example : splitParts "abc".data 0 = .error "ZeroDivisionError" := rfl

example : splitParts "abc".data (-2) = .ok [] := rfl

example : findConfigSplit "const config = \x7ba: 1\x7d;".data =
    some ([], "\x7ba: 1\x7d".data, []) := rfl

example : findConfigSplit "xx const  config=\x7b \x7d ; tail".data =
    some ("xx ".data, "\x7b \x7d".data, " tail".data) := rfl

example : findConfigSplit "var x = 1; const cfg = 2;".data = none := rfl

example : replace_config_in_code "var x = 1;" "whatever" = "var x = 1;" := rfl

example : replace_config_in_code "a; const config = \x7bold\x7d; b"
    "const config = \x7bnew\x7d;" = "a; const config = \x7bnew\x7d; b" := rfl

example : replace_config_in_code "a; const config = \x7bold\x7d; b"
    "  \x7bnew\x7d " = "a; const config = \x7bnew\x7d; b" := rfl

example : replace_config_in_code "a; const config = \x7bold\x7d; b"
    "nonsense" = "a; const config = nonsense; b" := rfl

example :
    let inner := "\x7b x: 2 \x7d"
    fixUpdatedConfig ("blah const config = " ++ inner ++ " ; blah").data =
      ("const config = " ++ inner ++ ";").data := rfl

end Scratch

/-! ## Claim C8 — the partitioner -/

/-- Joining the first `k` chunks of width `pl` and the remainder after
them recovers the whole list. -/
lemma flatten_chunks (c : List Char) (pl : Nat) :
    ∀ k, ((List.range k).map fun i => (c.drop (i * pl)).take pl).flatten
      ++ c.drop (k * pl) = c := by
  intro k
  induction k with
  | zero => simp
  | succ k ih =>
      rw [List.range_succ, List.map_append, List.flatten_append, List.append_assoc]
      have hdrop : (c.drop (k * pl)).take pl ++ c.drop ((k + 1) * pl) = c.drop (k * pl) := by
        have h1 : c.drop ((k + 1) * pl) = (c.drop (k * pl)).drop pl := by
          rw [List.drop_drop]
          congr 1
          ring
        rw [h1, List.take_append_drop]
      simpa [hdrop] using ih

/-- Claim C8 (amended): for every source text and every segment count
`n ≥ 1`, `splitParts` returns exactly `n` contiguous segments whose
concatenation is the whole text, every non-final segment having exactly
`len / n` characters (the final segment absorbs the remainder), and for
`n = 1` the single segment is the whole text.  (For `n = 0` the code
raises `ZeroDivisionError` and for `n < 0` it returns no segments, so
the original claim about all `n ≤ 1` fails; see the counterexample.) -/
theorem c8_split_amended (c : List Char) (n : Int) (hn : 1 ≤ n) :
    ∃ parts, splitParts c n = .ok parts ∧
      parts.length = n.toNat ∧
      parts.flatten = c ∧
      (∀ p ∈ parts.dropLast, p.length = c.length / n.toNat) ∧
      (n = 1 → parts = [c]) := by
  have hn0 : ¬ n = 0 := by omega
  have hn1 : ¬ n < 0 := by omega
  have hm1 : 1 ≤ n.toNat := by omega
  refine ⟨_, by rw [splitParts, if_neg hn0, if_neg hn1], ?_, ?_, ?_, ?_⟩
  · simp
  · -- the segments concatenate to the whole text
    set m := n.toNat with hm
    set pl := c.length / m with hpl
    have hsplit : List.range m = List.range (m - 1) ++ [m - 1] := by
      conv_lhs => rw [show m = (m - 1) + 1 by omega]
      exact List.range_succ (m - 1)
    rw [hsplit, List.map_append, List.flatten_append]
    have hlast : (List.map (fun i =>
        if i < m - 1 then (c.drop (i * pl)).take pl else c.drop (i * pl)) [m - 1]) =
        [c.drop ((m - 1) * pl)] := by
      simp
    have hbody : (List.range (m - 1)).map (fun i =>
        if i < m - 1 then (c.drop (i * pl)).take pl else c.drop (i * pl)) =
        (List.range (m - 1)).map (fun i => (c.drop (i * pl)).take pl) := by
      apply List.map_congr_left
      intro i hi
      rw [if_pos (List.mem_range.mp hi)]
    rw [hlast, hbody]
    simpa using flatten_chunks c pl (m - 1)
  · -- every non-final segment has exactly `len / n` characters
    set m := n.toNat with hm
    set pl := c.length / m with hpl
    intro p hp
    have hsplit : List.range m = List.range (m - 1) ++ [m - 1] := by
      conv_lhs => rw [show m = (m - 1) + 1 by omega]
      exact List.range_succ (m - 1)
    rw [hsplit, List.map_append] at hp
    have hdl : ((List.range (m - 1)).map (fun i =>
          if i < m - 1 then (c.drop (i * pl)).take pl else c.drop (i * pl)) ++
        (List.map (fun i =>
          if i < m - 1 then (c.drop (i * pl)).take pl else c.drop (i * pl)) [m - 1])).dropLast =
        (List.range (m - 1)).map (fun i =>
          if i < m - 1 then (c.drop (i * pl)).take pl else c.drop (i * pl)) := by
      simp
    rw [hdl] at hp
    obtain ⟨i, hi, rfl⟩ := List.mem_map.mp hp
    have hilt : i < m - 1 := List.mem_range.mp hi
    rw [if_pos hilt]
    have hbound : i * pl + pl ≤ c.length := by
      calc i * pl + pl = (i + 1) * pl := by ring
        _ ≤ m * pl := Nat.mul_le_mul_right pl (by omega)
        _ = pl * m := Nat.mul_comm _ _
        _ ≤ c.length := Nat.div_mul_le_self c.length m
    simp only [List.length_take, List.length_drop]
    omega
  · -- `n = 1` gives the single segment covering all of the text
    intro h1
    subst h1
    simp [splitParts, List.range_succ]

/-- Claim C8, counterexample to the original statement: the partitioner
does have an error condition (`n = 0` raises `ZeroDivisionError`), and
`n = -1 ≤ 1` yields zero segments instead of one segment covering the
text. -/
theorem c8_split_counterexample :
    splitParts "a".data 0 = .error "ZeroDivisionError" ∧
      splitParts "a".data (-1) = .ok [] := ⟨rfl, rfl⟩

/-- Claim C8, witness: the amended theorem applied to a concrete text
and `n = 2`. -/
theorem c8_split_witness :
    ∃ parts, splitParts "abcde".data 2 = .ok parts ∧
      parts.length = 2 ∧
      parts.flatten = "abcde".data ∧
      (∀ p ∈ parts.dropLast, p.length = "abcde".data.length / 2) ∧
      ((2 : Int) = 1 → parts = ["abcde".data]) :=
  c8_split_amended "abcde".data 2 (by decide)

/-! ## Claim C10 — the generator's result invariant -/

/-- Claim C10: whenever `generate_quiz_questions` returns a dictionary,
its `total_questions` field equals the length of its `questions` list,
and `questions` is exactly the concatenation of the per-segment question
lists in ascending segment-index order. -/
theorem c10_quiz_invariant
    (backend : Nat → List Char → Except String (Option (List Question)))
    (context : List Char) (n : Int) (sub_n : Nat) (qd : QuizData)
    (hq : generate_quiz_questions backend context n sub_n = .ok qd) :
    qd.total_questions = qd.questions.length ∧
      ∃ parts, splitParts context n = .ok parts ∧
        qd.questions = (segmentResults backend sub_n parts).flatten := by
  rw [generate_quiz_questions] at hq
  cases hsplit : splitParts context n with
  | error e => rw [hsplit] at hq; exact absurd hq (by simp)
  | ok parts =>
      rw [hsplit] at hq
      cases hq
      exact ⟨rfl, parts, rfl, rfl⟩

/-- Claim C10, witness: the invariant at a concrete backend, text and
parameters. -/
theorem c10_quiz_invariant_witness :
    ∃ qd, generate_quiz_questions (constBackend [sampleQ]) "abcd".data 2 3 = .ok qd ∧
      qd.total_questions = qd.questions.length ∧
      ∃ parts, splitParts "abcd".data 2 = .ok parts ∧
        qd.questions = (segmentResults (constBackend [sampleQ]) 3 parts).flatten := by
  exact ⟨_, rfl, c10_quiz_invariant (constBackend [sampleQ]) "abcd".data 2 3 _ rfl⟩

/-! ## Claim C1 — the question ceiling -/

/-- Claim C1, counterexample: with `n = 4`, `sub_n = 3` (so
`n * sub_n = 12 > 10`) and a backend that returns `sub_n` questions for
every part, `generate_quiz_questions` returns 12 questions — the code
performs no segment-count reduction and enforces no ceiling of 10. -/
theorem c1_ceiling_counterexample :
    (generate_quiz_questions (constBackend [sampleQ, sampleQ, sampleQ])
        "abcdefgh".data 4 3).map QuizData.total_questions = .ok 12 ∧
      10 < 12 := ⟨rfl, by decide⟩

/-- Claim C1 (amended): `generate_quiz_questions` enforces no ceiling on
the total number of questions: for every `n ≥ 1` it keeps exactly `n`
segments — whatever `n * sub_n` is, with no random sub-sampling — and
the total is simply the sum of the per-segment question counts, which
can exceed 10. -/
theorem c1_no_ceiling_amended
    (backend : Nat → List Char → Except String (Option (List Question)))
    (context : List Char) (n : Int) (sub_n : Nat) (hn : 1 ≤ n) :
    ∃ parts, splitParts context n = .ok parts ∧
      parts.length = n.toNat ∧
      generate_quiz_questions backend context n sub_n =
        .ok { total_questions := ((segmentResults backend sub_n parts).map List.length).sum
              questions := (segmentResults backend sub_n parts).flatten } := by
  have hn0 : ¬ n = 0 := by omega
  have hn1 : ¬ n < 0 := by omega
  refine ⟨_, by rw [splitParts, if_neg hn0, if_neg hn1], by simp, ?_⟩
  rw [generate_quiz_questions, splitParts, if_neg hn0, if_neg hn1]
  simp [List.length_flatten]

/-- Claim C1, witness: the amended theorem at a concrete text and
`n = 4`, `sub_n = 3`. -/
theorem c1_no_ceiling_witness :
    ∃ parts, splitParts "abcdefgh".data 4 = .ok parts ∧
      parts.length = (4 : Int).toNat ∧
      generate_quiz_questions (constBackend [sampleQ, sampleQ, sampleQ]) "abcdefgh".data 4 3 =
        .ok { total_questions :=
                ((segmentResults (constBackend [sampleQ, sampleQ, sampleQ]) 3 parts).map
                  List.length).sum
              questions :=
                (segmentResults (constBackend [sampleQ, sampleQ, sampleQ]) 3 parts).flatten } :=
  c1_no_ceiling_amended (constBackend [sampleQ, sampleQ, sampleQ]) "abcdefgh".data 4 3 (by decide)


/-! ## Claim C5 — global question numbering -/

/-- The renumbering loop gives the questions of a part the consecutive
numbers `num, num + 1, ...`. -/
lemma renumberFrom_map_number (qs : List Question) :
    ∀ num, (renumberFrom num qs).map Question.question_number = List.range' num qs.length := by
  induction qs with
  | nil => intro num; simp [renumberFrom]
  | cons q qs ih =>
      intro num
      simp [renumberFrom, fixupQuestion, List.range'_succ, ih (num + 1)]

/-- Renumbering preserves the number of questions in a part. -/
lemma renumberFrom_length (qs : List Question) :
    ∀ num, (renumberFrom num qs).length = qs.length := by
  induction qs with
  | nil => intro num; simp [renumberFrom]
  | cons q qs ih => intro num; simp [renumberFrom, ih (num + 1)]

/-- Segment `i` always carries the numbers
`i * sub_n + 1, ..., i * sub_n + count` where `count` is the number of
questions the segment contributed (0 on any degraded outcome). -/
lemma postprocessPart_map_number (sub_n i : Nat) (qs : List Question) :
    (postprocessPart sub_n i qs).map Question.question_number =
      List.range' (i * sub_n + 1) (postprocessPart sub_n i qs).length := by
  unfold postprocessPart
  by_cases h : (qs.all fun q => q.question_type.isSome) = true
  · rw [if_pos h, renumberFrom_map_number, renumberFrom_length]
  · rw [if_neg h]; simp

lemma postprocessPart_length_le (sub_n i : Nat) (qs : List Question)
    (h : qs.length ≤ sub_n) : (postprocessPart sub_n i qs).length ≤ sub_n := by
  unfold postprocessPart
  by_cases hall : (qs.all fun q => q.question_type.isSome) = true
  · rw [if_pos hall, renumberFrom_length]; exact h
  · rw [if_neg hall]; simp

lemma part_numbers
    (backend : Nat → List Char → Except String (Option (List Question)))
    (sub_n i : Nat) (p : List Char) :
    (generate_questions_for_part backend sub_n i p).map Question.question_number =
      List.range' (i * sub_n + 1) (generate_questions_for_part backend sub_n i p).length := by
  rw [generate_questions_for_part]
  cases backend i p with
  | error e => simp
  | ok o =>
      cases o with
      | none => simp
      | some qs => exact postprocessPart_map_number sub_n i qs

/-- When every backend reply holds at most `sub_n` questions, every
segment contributes at most `sub_n` questions. -/
lemma part_count_le
    (backend : Nat → List Char → Except String (Option (List Question)))
    (sub_n : Nat)
    (hb : ∀ i p qs, backend i p = .ok (some qs) → qs.length ≤ sub_n)
    (i : Nat) (p : List Char) :
    (generate_questions_for_part backend sub_n i p).length ≤ sub_n := by
  rw [generate_questions_for_part]
  cases hbp : backend i p with
  | error e => simp
  | ok o =>
      cases o with
      | none => simp
      | some qs => exact postprocessPart_length_le sub_n i qs (hb i p qs hbp)

/-- Every question number produced by the segments starting at index `k`
is at least `k * sub_n + 1`. -/
lemma numbers_lower_bound
    (backend : Nat → List Char → Except String (Option (List Question)))
    (sub_n : Nat) (parts : List (List Char)) :
    ∀ k y, y ∈ ((segmentResultsFrom backend sub_n k parts).flatten).map Question.question_number →
      k * sub_n + 1 ≤ y := by
  induction parts with
  | nil => intro k y hy; simp [segmentResultsFrom] at hy
  | cons p ps ih =>
      intro k y hy
      rw [segmentResultsFrom, List.flatten_cons, List.map_append, List.mem_append] at hy
      rcases hy with hy | hy
      · rw [part_numbers] at hy
        exact (List.mem_range'_1.mp hy).1
      · have h1 := ih (k + 1) y hy
        have h2 : k * sub_n ≤ (k + 1) * sub_n := Nat.mul_le_mul_right sub_n (by omega)
        omega

/-- When every backend reply holds at most `sub_n` questions, the
question numbers of the flattened output of the segments starting at
index `k` are strictly increasing. -/
lemma numbers_pairwise
    (backend : Nat → List Char → Except String (Option (List Question)))
    (sub_n : Nat)
    (hb : ∀ i p qs, backend i p = .ok (some qs) → qs.length ≤ sub_n)
    (parts : List (List Char)) :
    ∀ k, List.Pairwise (· < ·)
      (((segmentResultsFrom backend sub_n k parts).flatten).map Question.question_number) := by
  induction parts with
  | nil => intro k; simp [segmentResultsFrom]
  | cons p ps ih =>
      intro k
      rw [segmentResultsFrom, List.flatten_cons, List.map_append, List.pairwise_append]
      refine ⟨?_, ih (k + 1), ?_⟩
      · rw [part_numbers]
        exact List.pairwise_lt_range' _ _
      · intro x hx y hy
        rw [part_numbers] at hx
        have hxu : x < k * sub_n + 1 + (generate_questions_for_part backend sub_n k p).length :=
          (List.mem_range'_1.mp hx).2
        have hcle : (generate_questions_for_part backend sub_n k p).length ≤ sub_n :=
          part_count_le backend sub_n hb k p
        have hyl : (k + 1) * sub_n + 1 ≤ y := numbers_lower_bound backend sub_n ps (k + 1) y hy
        have hk1 : (k + 1) * sub_n = k * sub_n + sub_n := by ring
        omega

/-- Claim C5 (amended): the generator renumbers segment `i`'s questions
to `i * sub_n + 1 .. i * sub_n + count` with no gaps inside a segment's
contribution (unconditionally), and — provided every backend reply
carries at most `sub_n` questions — the question numbers of the
concatenated output are globally unique and strictly increasing.
Completion order of the concurrent tasks never enters: `asyncio.gather`
reassembles the per-segment lists in segment order.  (When a segment
replies with more than `sub_n` questions, uniqueness fails; see the
counterexample.) -/
theorem c5_numbering_amended
    (backend : Nat → List Char → Except String (Option (List Question)))
    (context : List Char) (n : Int) (sub_n : Nat) (qd : QuizData)
    (hb : ∀ i p qs, backend i p = .ok (some qs) → qs.length ≤ sub_n)
    (hq : generate_quiz_questions backend context n sub_n = .ok qd) :
    List.Pairwise (· < ·) (qd.questions.map Question.question_number) ∧
      (qd.questions.map Question.question_number).Nodup ∧
      ∀ i p, (generate_questions_for_part backend sub_n i p).map Question.question_number =
        List.range' (i * sub_n + 1) (generate_questions_for_part backend sub_n i p).length := by
  rw [generate_quiz_questions] at hq
  cases hsplit : splitParts context n with
  | error e => rw [hsplit] at hq; exact absurd hq (by simp)
  | ok parts =>
      rw [hsplit] at hq
      cases hq
      have hpw : List.Pairwise (· < ·)
          (((segmentResultsFrom backend sub_n 0 parts).flatten).map Question.question_number) :=
        numbers_pairwise backend sub_n hb parts 0
      exact ⟨hpw, hpw.imp Nat.ne_of_lt, fun i p => part_numbers backend sub_n i p⟩

/-- Claim C5, counterexample to the original statement: when segment 0
replies with four questions while `sub_n = 3`, the renumbering produces
`[1, 2, 3, 4]` for segment 0 and `[4]` for segment 1, so the
concatenated numbers `[1, 2, 3, 4, 4]` are neither unique nor strictly
increasing. -/
theorem c5_numbering_counterexample :
    (generate_quiz_questions overfullBackend "ab".data 2 3).map
        (fun qd => qd.questions.map Question.question_number) = .ok [1, 2, 3, 4, 4] ∧
      ¬ ([1, 2, 3, 4, 4] : List Nat).Nodup ∧
      ¬ List.Pairwise (· < ·) ([1, 2, 3, 4, 4] : List Nat) :=
  ⟨rfl, by decide, by decide⟩

/-- Claim C5, witness: the amended theorem at a concrete backend that
returns two questions (at most `sub_n = 3`) for every part. -/
theorem c5_numbering_witness :
    ∃ qd, generate_quiz_questions (constBackend [sampleQ, sampleQ]) "ab".data 2 3 = .ok qd ∧
      List.Pairwise (· < ·) (qd.questions.map Question.question_number) ∧
      (qd.questions.map Question.question_number).Nodup := by
  refine ⟨_, rfl, ?_, ?_⟩
  · exact (c5_numbering_amended (constBackend [sampleQ, sampleQ]) "ab".data 2 3 _
      (by intro i p qs h; simp only [constBackend, Except.ok.injEq, Option.some.injEq] at h
          subst h; decide) rfl).1
  · exact (c5_numbering_amended (constBackend [sampleQ, sampleQ]) "ab".data 2 3 _
      (by intro i p qs h; simp only [constBackend, Except.ok.injEq, Option.some.injEq] at h
          subst h; decide) rfl).2.1

/-! ## Claim C6 — store failures are isolated to their question -/

/-- The matcher stage returns one question per input question. -/
lemma match_list_length (qs : List Question) (device : String) :
    ∀ (query : Nat → Except String (Option (List Game))) (pick : Nat → Nat),
      (match_questions_with_games qs device query pick).length = qs.length := by
  induction qs with
  | nil => intro query pick; rfl
  | cons q qs ih =>
      intro query pick
      simp [match_questions_with_games, ih (fun i => query (i + 1)) (fun i => pick (i + 1))]

/-- The `j`-th output of the matcher stage depends only on the `j`-th
question and the outcomes of that question's own store query and random
draw. -/
lemma match_list_get? (qs : List Question) (device : String) :
    ∀ (query : Nat → Except String (Option (List Game))) (pick : Nat → Nat) (j : Nat),
      (match_questions_with_games qs device query pick).get? j =
        (qs.get? j).map fun q => match_question_with_game q device (query j) (pick j) := by
  induction qs with
  | nil => intro query pick j; simp [match_questions_with_games]
  | cons q qs ih =>
      intro query pick j
      cases j with
      | zero => simp [match_questions_with_games]
      | succ j =>
          simp only [match_questions_with_games, List.get?_cons_succ]
          exact ih (fun i => query (i + 1)) (fun i => pick (i + 1)) j

/-- Claim C6: the matcher always returns one question per input question
(no exception escapes it — the `except` arm of
`match_question_with_game` is itself a normal return); the `j`-th result
is a function of the `j`-th question's own query outcome only, so one
question's store failure cannot abort its siblings; and when the query
for question `i` raises, that question comes back with `game_id` set to
`None` (and `original_config` / `original_code` `None` as well). -/
theorem c6_store_failure_isolated (qs : List Question) (device : String)
    (query : Nat → Except String (Option (List Game))) (pick : Nat → Nat) :
    (match_questions_with_games qs device query pick).length = qs.length ∧
      (∀ j q, qs.get? j = some q →
        (match_questions_with_games qs device query pick).get? j =
          some (match_question_with_game q device (query j) (pick j))) ∧
      (∀ i q e, qs.get? i = some q → query i = .error e →
        (match_questions_with_games qs device query pick).get? i =
          some { q with game_id := some none
                        original_config := some none
                        original_code := some none }) := by
  refine ⟨match_list_length qs device query pick, ?_, ?_⟩
  · intro j q hq
    rw [match_list_get? qs device query pick j, hq, Option.map_some']
  · intro i q e hq he
    rw [match_list_get? qs device query pick i, hq, Option.map_some', he]
    rfl

/-- Claim C6, witness: with a store that fails for question 0 and
answers for question 1, question 0 comes back unmatched while the stage
still returns both questions. -/
theorem c6_store_failure_witness :
    (match_questions_with_games [sampleQ, sampleQ] "web" failingThenOkQuery
        (fun _ => 0)).length = 2 ∧
      (match_questions_with_games [sampleQ, sampleQ] "web" failingThenOkQuery
          (fun _ => 0)).get? 0 =
        some { sampleQ with game_id := some none
                            original_config := some none
                            original_code := some none } :=
  ⟨(c6_store_failure_isolated [sampleQ, sampleQ] "web" failingThenOkQuery (fun _ => 0)).1,
    (c6_store_failure_isolated [sampleQ, sampleQ] "web" failingThenOkQuery (fun _ => 0)).2.2
      0 sampleQ "db down" rfl rfl⟩

/-! ## Claim C7 — client-side filtering and selection -/

/-- Claim C7 (amended): the matcher filters the store's candidate set to
the games whose metadata `device` equals the requested device and whose
metadata `question_type` equals the question's type; if the filtered set
is non-empty it attaches `game_id`, `original_config` and
`original_code` taken from one of its members (the `random.choice` draw,
modelled by an arbitrary `pick` index); if it is empty it attaches
`game_id = None` and also sets `original_config` and `original_code` to
`None` — the keys are present with a null value, not absent as the
original claim stated (see the counterexample). -/
theorem c7_matcher_amended (q : Question) (device : String) (games : List Game) (pick : Nat) :
    ((games.filter fun g =>
        g.metadata.device == some device &&
        g.metadata.question_type == some (q.question_type.getD "multiple_choice")) = [] →
      match_question_with_game q device (.ok (some games)) pick =
        { q with game_id := some none
                 original_config := some none
                 original_code := some none }) ∧
    ((games.filter fun g =>
        g.metadata.device == some device &&
        g.metadata.question_type == some (q.question_type.getD "multiple_choice")) ≠ [] →
      ∃ g ∈ games.filter fun g =>
          g.metadata.device == some device &&
          g.metadata.question_type == some (q.question_type.getD "multiple_choice"),
        match_question_with_game q device (.ok (some games)) pick =
          { q with game_id := some (some g.id)
                   original_config := some (some g.config)
                   original_code := some (some g.code) }) := by
  set matched := games.filter fun g =>
    g.metadata.device == some device &&
    g.metadata.question_type == some (q.question_type.getD "multiple_choice") with hmatched
  have key : match_question_with_game q device (.ok (some games)) pick =
      if h : matched.length = 0 then
        { q with game_id := some none
                 original_config := some none
                 original_code := some none }
      else
        let selected := matched.get ⟨pick % matched.length, Nat.mod_lt _ (Nat.pos_of_ne_zero h)⟩
        { q with game_id := some (some selected.id)
                 original_config := some (some selected.config)
                 original_code := some (some selected.code) } := rfl
  constructor
  · intro hempty
    rw [key, dif_pos (by rw [hempty]; rfl)]
  · intro hne
    have hlen : ¬ matched.length = 0 := fun h0 => hne (List.length_eq_zero.mp h0)
    rw [key, dif_neg hlen]
    exact ⟨matched.get ⟨pick % matched.length, Nat.mod_lt _ (Nat.pos_of_ne_zero hlen)⟩,
      List.get_mem _ _ _, rfl⟩

/-- Claim C7, counterexample to the original statement: with an empty
candidate set, the matcher leaves `original_config` and `original_code`
present with value `None` on the question (`some none` in the model),
whereas the claim says the config/code fields stay absent (`none`). -/
theorem c7_absent_fields_counterexample :
    (match_question_with_game sampleQ "web" (.ok (some [])) 0).original_config = some none ∧
      (match_question_with_game sampleQ "web" (.ok (some [])) 0).original_code = some none ∧
      sampleQ.original_config = none ∧ sampleQ.original_code = none :=
  ⟨rfl, rfl, rfl, rfl⟩

/-- Claim C7, witness: the amended theorem at a store containing one
compatible game, which the matcher then attaches to the question. -/
theorem c7_matcher_witness :
    ∃ g ∈ [sampleGame].filter fun g =>
        g.metadata.device == some "web" &&
        g.metadata.question_type == some (sampleQ.question_type.getD "multiple_choice"),
      match_question_with_game sampleQ "web" (.ok (some [sampleGame])) 0 =
        { sampleQ with game_id := some (some g.id)
                       original_config := some (some g.config)
                       original_code := some (some g.code) } :=
  (c7_matcher_amended sampleQ "web" [sampleGame] 0).2 (by decide)

/-! ## Claim C2 — retry exhaustion in the config stage -/

/-- Claim C2 (amended): when the configuration generation call raises on
both attempts of the retry budget, `update_config_with_theme` raises a
`RetryError` (tenacity with `stop_after_attempt(2)` and no `reraise`),
and `process_question_config` — which has no handler around the call —
propagates it, so the question never receives a fallback `code`; the
original claim's fallback to the unmodified configuration does not
happen (the fallback exists only for a non-raising call that returns an
empty response or blank text). -/
theorem c2_retry_exhaustion_amended (q : Question) (theme : String)
    (attempts : Nat → CallOutcome) (cfg e0 e1 : String)
    (hc : q.original_config = some (some cfg))
    (h0 : attempts 0 = .raise e0) (h1 : attempts 1 = .raise e1) :
    update_config_with_theme cfg theme q attempts = .error ("RetryError: " ++ e1) ∧
      process_question_config q theme attempts = .error ("RetryError: " ++ e1) := by
  have hu : update_config_with_theme cfg theme q attempts = .error ("RetryError: " ++ e1) := by
    rw [update_config_with_theme, h0, h1]
    rfl
  refine ⟨hu, ?_⟩
  rw [process_question_config, hc]
  simp only [hu]

/-- Claim C2, counterexample to the original statement: for an eligible
question whose two config-call attempts both raise, the whole config
stage raises a `RetryError` instead of falling back to the original,
unmodified configuration — there is no final `code` at all. -/
theorem c2_retry_fallback_counterexample :
    update_game_configs [matchedQ] "space theme" raisingAttempts =
      .error "RetryError: boom1" := rfl

/-- Claim C2, witness: the amended theorem at the concrete matched
question and always-raising attempt oracles. -/
theorem c2_retry_exhaustion_witness :
    update_config_with_theme "const config = \x7b color: red \x7d;" "space theme" matchedQ
        (raisingAttempts 0) = .error ("RetryError: " ++ "boom1") ∧
      process_question_config matchedQ "space theme" (raisingAttempts 0) =
        .error ("RetryError: " ++ "boom1") :=
  c2_retry_exhaustion_amended matchedQ "space theme" (raisingAttempts 0)
    "const config = \x7b color: red \x7d;" "boom0" "boom1" rfl rfl rfl

/-! ## Claim C3 — what the config stage returns -/

/-- The gathered config-update tasks: on success the output pairs up
with the eligible input, position by position. -/
lemma processAll_spec (theme : String) (attemptsFor : Nat → Nat → CallOutcome) :
    ∀ (l : List Question) (k : Nat) (out : List Question),
      processAll theme attemptsFor k l = .ok out →
      out.length = l.length ∧
        ∀ j q, l.get? j = some q →
          ∃ r, out.get? j = some r ∧
            process_question_config q theme (attemptsFor (k + j)) = .ok r := by
  intro l
  induction l with
  | nil =>
      intro k out h
      rw [processAll] at h
      cases h
      exact ⟨rfl, by intro j q hq; simp at hq⟩
  | cons q qs ih =>
      intro k out h
      rw [processAll] at h
      cases hp : process_question_config q theme (attemptsFor k) with
      | error e => rw [hp] at h; exact absurd h (by simp)
      | ok q1 =>
          rw [hp] at h
          cases hr : processAll theme attemptsFor (k + 1) qs with
          | error e => rw [hr] at h; exact absurd h (by simp)
          | ok rest =>
              rw [hr] at h
              cases h
              obtain ⟨hlen, hget⟩ := ih (k + 1) rest hr
              refine ⟨by simp [hlen], ?_⟩
              intro j q2 hq
              cases j with
              | zero =>
                  rw [List.get?_cons_zero] at hq
                  cases hq
                  exact ⟨q1, rfl, by rw [Nat.add_zero]; exact hp⟩
              | succ j =>
                  rw [List.get?_cons_succ] at hq
                  obtain ⟨r, hr1, hr2⟩ := hget j q2 hq
                  refine ⟨r, by rw [List.get?_cons_succ]; exact hr1, ?_⟩
                  have harith : k + (j + 1) = (k + 1) + j := by omega
                  rw [harith]
                  exact hr2

/-- Claim C3 (amended): `update_game_configs` processes only the
questions that have a truthy `game_id` and `original_config`, and its
output is exactly the processed eligible questions, in order — every
other question of its input is dropped from the stage's output, not
passed through (see the counterexample). -/
theorem c3_stage_amended (questions : List Question) (theme : String)
    (attemptsFor : Nat → Nat → CallOutcome) (out : List Question)
    (h : update_game_configs questions theme attemptsFor = .ok out) :
    out.length = (questions.filter eligibleQuestion).length ∧
      ∀ j q, (questions.filter eligibleQuestion).get? j = some q →
        ∃ r, out.get? j = some r ∧
          process_question_config q theme (attemptsFor j) = .ok r := by
  have hs := processAll_spec theme attemptsFor (questions.filter eligibleQuestion) 0 out h
  refine ⟨hs.1, ?_⟩
  intro j q hq
  have := hs.2 j q hq
  rwa [Nat.zero_add] at this

/-- Claim C3, counterexample to the original statement: a question with
no `game_id` does not appear in the stage's output at all — the output
for a singleton non-eligible input is the empty list, not the question
passed through unchanged. -/
theorem c3_passthrough_counterexample :
    update_game_configs [sampleQ] "space theme" okAttempts = .ok [] ∧
      ([] : List Question) ≠ [sampleQ] := ⟨rfl, by decide⟩

/-- Claim C3, witness: a mixed input (one unmatched, one matched
question); the stage's output has exactly one entry, the processed
matched question. -/
theorem c3_stage_witness :
    ∃ out, update_game_configs [sampleQ, matchedQ] "space theme" okAttempts = .ok out ∧
      out.length = ([sampleQ, matchedQ].filter eligibleQuestion).length ∧
      ∀ j q, ([sampleQ, matchedQ].filter eligibleQuestion).get? j = some q →
        ∃ r, out.get? j = some r ∧
          process_question_config q "space theme" (okAttempts j) = .ok r := by
  refine ⟨_, rfl, c3_stage_amended [sampleQ, matchedQ] "space theme" okAttempts _ rfl⟩

/-! ## Claim C9 — game code without a config-declaration block -/

/-- Claim C9: when the matched game code contains no
config-declaration block, `replace_config_in_code` returns the code
unmodified (for any replacement text) and the no-block diagnostic is
recorded; the question still flows through the config stage and ends in
the stage's output with its `code` equal to the original game code.
(The hypotheses describe an eligible matched question whose config-call
succeeds with non-blank text, the path on which
`replace_config_in_code` runs.) -/
theorem c9_no_config_block (q : Question) (theme : String)
    (attempts : Nat → CallOutcome) (gid cfg code txt : String)
    (hg : q.game_id = some (some gid)) (hgne : gid ≠ "")
    (hc : q.original_config = some (some cfg)) (hcne : cfg ≠ "")
    (hk : q.original_code = some (some code)) (hkne : code ≠ "")
    (hblock : findConfigSplit code.data = none)
    (ha : attempts 0 = .ok (some txt)) (htne : txt ≠ "")
    (hstrip : String.mk (pyStrip txt.data) ≠ "") :
    noConfigDiagnostic code = true ∧
      (∀ u, replace_config_in_code code u = code) ∧
      ∃ q1, update_game_configs [q] theme (fun _ => attempts) = .ok [q1] ∧
        q1.code = some code := by
  have hrep : ∀ u, replace_config_in_code code u = code := by
    intro u
    rw [replace_config_in_code, hblock]
  refine ⟨by rw [noConfigDiagnostic, hblock]; rfl, hrep, ?_⟩
  have hupd : update_config_with_theme cfg theme q attempts =
      .ok (String.mk (pyStrip txt.data)) := by
    rw [update_config_with_theme, ha]
    simp [attemptConfigCall, htne]
  have hproc : process_question_config q theme attempts =
      .ok { q with original_config := none, original_code := none, code := some code } := by
    rw [process_question_config, hc]
    simp only [hupd, hk]
    rw [if_pos ⟨hstrip, hkne⟩, hrep (String.mk (pyStrip txt.data))]
  have helig : eligibleQuestion q = true := by
    simp [eligibleQuestion, truthyField, hg, hc, hgne, hcne]
  have hfilter : [q].filter eligibleQuestion = [q] := by
    simp [List.filter, helig]
  refine ⟨{ q with original_config := none, original_code := none, code := some code }, ?_, rfl⟩
  rw [update_game_configs, hfilter, processAll, hproc, processAll]

/-- Claim C9, witness: a matched question whose game code
`"start(); run();"` has no config-declaration block; the stage returns
it with its original code. -/
theorem c9_no_config_block_witness :
    noConfigDiagnostic "start(); run();" = true ∧
      replace_config_in_code "start(); run();" "const config = \x7b color: blue \x7d;" =
        "start(); run();" ∧
      ∃ q1, update_game_configs [matchedQNoBlock] "space theme" (fun _ => okAttempts 0) =
          .ok [q1] ∧ q1.code = some "start(); run();" :=
  have T := c9_no_config_block matchedQNoBlock "space theme" (okAttempts 0) "game-2"
    "const config = \x7b color: red \x7d;" "start(); run();"
    "const config = \x7b color: blue \x7d;"
    rfl (by decide) rfl (by decide) rfl (by decide) rfl rfl (by decide) (by decide)
  ⟨T.1, T.2.1 "const config = \x7b color: blue \x7d;", T.2.2⟩

/-! ## Failure behaviour of the inner pipeline stages

The next lemmas characterise when the generator and the config stage
return normally.  They are not reachable from the GET endpoint (its
handler faults at the wiki await, see `generate_quiz_get`), but they
document the stages' own error behaviour, complementing claims C2 and
C3. -/

/-- A non-raising call attempt always produces a config string. -/
lemma attemptConfigCall_ok (cfg : String) (t : Option String) :
    ∃ s, attemptConfigCall cfg (.ok t) = .ok s := by
  cases t with
  | none => exact ⟨cfg, rfl⟩
  | some txt => exact ⟨_, rfl⟩

/-- If at least one of the two attempts does not raise, the retried
config call returns a config string. -/
lemma update_config_ok (cfg theme : String) (q : Question) (attempts : Nat → CallOutcome)
    (h : (∃ t, attempts 0 = CallOutcome.ok t) ∨ (∃ t, attempts 1 = CallOutcome.ok t)) :
    ∃ s, update_config_with_theme cfg theme q attempts = .ok s := by
  rcases h with ⟨t, h0⟩ | ⟨t, h1⟩
  · obtain ⟨s, hs⟩ := attemptConfigCall_ok cfg t
    exact ⟨s, by rw [update_config_with_theme, h0, hs]⟩
  · cases h0 : attempts 0 with
    | raise e =>
        obtain ⟨s, hs⟩ := attemptConfigCall_ok cfg t
        refine ⟨s, ?_⟩
        rw [update_config_with_theme, h0, h1, hs]
        rfl
    | ok t0 =>
        obtain ⟨s, hs⟩ := attemptConfigCall_ok cfg t0
        exact ⟨s, by rw [update_config_with_theme, h0, hs]⟩

/-- A question carrying an original config is processed without raising
whenever its call budget is not exhausted. -/
lemma process_question_config_ok (q : Question) (theme : String)
    (attempts : Nat → CallOutcome) (cfg : String)
    (hc : q.original_config = some (some cfg))
    (h : (∃ t, attempts 0 = CallOutcome.ok t) ∨ (∃ t, attempts 1 = CallOutcome.ok t)) :
    ∃ q1, process_question_config q theme attempts = .ok q1 := by
  obtain ⟨s, hs⟩ := update_config_ok cfg theme q attempts h
  cases hp : process_question_config q theme attempts with
  | ok q1 => exact ⟨q1, rfl⟩
  | error e =>
      exfalso
      rw [process_question_config, hc] at hp
      simp only [hs] at hp
      cases hp

/-- Every question the eligibility filter keeps carries an original
config string. -/
lemma filter_eligible_config (questions : List Question) :
    ∀ q ∈ questions.filter eligibleQuestion, ∃ c, q.original_config = some (some c) := by
  intro q hq
  have h2 := (List.mem_filter.mp hq).2
  rw [eligibleQuestion, Bool.and_eq_true] at h2
  have h3 := h2.2
  cases hoc : q.original_config with
  | none => rw [hoc] at h3; simp [truthyField] at h3
  | some o =>
      cases o with
      | none => rw [hoc] at h3; simp [truthyField] at h3
      | some s => exact ⟨s, rfl⟩

/-- The gathered config tasks all succeed when no question's call
budget is exhausted. -/
lemma processAll_ok (theme : String) (attemptsFor : Nat → Nat → CallOutcome)
    (hatt : ∀ i, (∃ t, attemptsFor i 0 = CallOutcome.ok t) ∨
      (∃ t, attemptsFor i 1 = CallOutcome.ok t)) :
    ∀ (l : List Question) (k : Nat),
      (∀ q ∈ l, ∃ c, q.original_config = some (some c)) →
      ∃ out, processAll theme attemptsFor k l = .ok out := by
  intro l
  induction l with
  | nil => intro k h; exact ⟨[], rfl⟩
  | cons q qs ih =>
      intro k hall
      obtain ⟨c, hc⟩ := hall q (List.mem_cons_self q qs)
      obtain ⟨q1, h1⟩ := process_question_config_ok q theme (attemptsFor k) c hc (hatt k)
      obtain ⟨rest, hrest⟩ := ih (k + 1) (fun r hr => hall r (List.mem_cons_of_mem q hr))
      exact ⟨q1 :: rest, by rw [processAll, h1, hrest]⟩

/-- The config stage returns normally when no eligible question's call
budget is exhausted. -/
lemma update_game_configs_ok (questions : List Question) (theme : String)
    (attemptsFor : Nat → Nat → CallOutcome)
    (hatt : ∀ i, (∃ t, attemptsFor i 0 = CallOutcome.ok t) ∨
      (∃ t, attemptsFor i 1 = CallOutcome.ok t)) :
    ∃ out, update_game_configs questions theme attemptsFor = .ok out := by
  rw [update_game_configs]
  exact processAll_ok theme attemptsFor hatt _ 0 (filter_eligible_config questions)

/-- With the endpoint's default `n = 10`, the generator itself never
raises, whatever the backend outcomes. -/
lemma generate_quiz_default_ok
    (backend : Nat → List Char → Except String (Option (List Question)))
    (context : List Char) :
    ∃ qd, generate_quiz_questions backend context 10 3 = .ok qd := by
  rw [generate_quiz_questions, splitParts,
    if_neg (by norm_num : ¬ (10 : Int) = 0), if_neg (by norm_num : ¬ (10 : Int) < 0)]
  exact ⟨_, rfl⟩

/-! ## Claim C4 — the GET endpoint -/

/-- Claim C4 (amended): a request failing validation receives a
structured error payload, but every request with a valid device and a
non-empty query terminates with an unhandled exception: the synchronous
`wiki_search_with_claude` returns a `str` that `main.py` line 53
awaits, raising `TypeError` before question generation ever starts —
and if the wiki search itself raises, that exception propagates
unhandled instead.  The structured-result guarantee of the original
claim therefore fails even when every collaborator behaves
(see the counterexample). -/
theorem c4_endpoint_amended (user_query : Option String) (device : String)
    (wiki : Except String String) :
    (¬ (device = "web" ∨ device = "mobile") →
      generate_quiz_get user_query device wiki =
        .ok (.errorPayload "Device parameter must be either web or mobile")) ∧
      ((device = "web" ∨ device = "mobile") → user_query.getD "" = "" →
        generate_quiz_get user_query device wiki =
          .ok (.errorPayload "Please provide a search query")) ∧
      ((device = "web" ∨ device = "mobile") → ¬ user_query.getD "" = "" →
        ∀ content, wiki = .ok content →
          generate_quiz_get user_query device wiki =
            .error "TypeError: object str cannot be used in await expression") ∧
      ((device = "web" ∨ device = "mobile") → ¬ user_query.getD "" = "" →
        ∀ e, wiki = .error e →
          generate_quiz_get user_query device wiki = .error e) := by
  refine ⟨?_, ?_, ?_, ?_⟩
  · intro hbad
    rw [generate_quiz_get.eq_def, if_pos hbad]
  · intro hd hq
    rw [generate_quiz_get.eq_def, if_neg (not_not_intro hd), if_pos hq]
  · intro hd hq content hw
    rw [generate_quiz_get.eq_def, if_neg (not_not_intro hd), if_neg hq, hw]
  · intro hd hq e hw
    rw [generate_quiz_get.eq_def, if_neg (not_not_intro hd), if_neg hq, hw]

/-- Claim C4, counterexample to the original statement: a request with
a valid device, a non-empty query and a wiki search that returns text —
no collaborator failing anywhere — still terminates with the unhandled
`TypeError` raised by awaiting the synchronous wiki result, not with a
structured payload. -/
theorem c4_unhandled_counterexample :
    generate_quiz_get (some "photosynthesis") "web" (.ok "wiki article text") =
      .error "TypeError: object str cannot be used in await expression" := rfl

/-- Claim C4, witness: the amended theorem at concrete requests — an
invalid device yields the structured device payload, and a valid
request whose wiki search raises propagates that exception. -/
theorem c4_endpoint_witness :
    generate_quiz_get none "tablet" (.ok "t") =
        .ok (.errorPayload "Device parameter must be either web or mobile") ∧
      generate_quiz_get (some "photosynthesis") "web" (.error "auth error") =
        .error "auth error" :=
  ⟨(c4_endpoint_amended none "tablet" (.ok "t")).1 (by decide),
    (c4_endpoint_amended (some "photosynthesis") "web" (.error "auth error")).2.2.2
      (Or.inl rfl) (by decide) "auth error" rfl⟩

end QuizFighter
